import Mathlib

/-!
Shallow embedding of the event lifecycle manager of events.socis.ca:
the events tRPC router (src/src/lib/server/routers/events.ts, first version
in the file — the one performing blob reconciliation), its upload helper
(src/src/lib/server/routers/utils/upload.ts), the permission checker
(src/src/lib/utils/events.ts lines 112-118 and the null-guarded variant in
src/unnamed/part_010), the validator isValidEventData
(src/src/lib/utils/events.ts lines 9-108) and the configuration
(src/src/lib/config/event.config.ts).

External collaborators are modelled explicitly: the entity store is a map
from id to Event, the blob store's outcomes are oracles (delOk, putResult)
carried by an environment, and every invocation of the blob-store delete is
recorded in a trace so that statements about which URLs are ever deleted can
be made.  JavaScript truthiness on strings is modelled by comparison with
the empty string; the nullish-coalescing operator on optional fields is
Option.getD.
-/

/-- Permission values used by the events router (Permission.ADMIN,
CREATE_EVENT, EDIT_EVENT, DELETE_EVENT; DEFAULT is the row default from the
User table). -/
inductive Permission where
  | ADMIN
  | CREATE_EVENT
  | EDIT_EVENT
  | DELETE_EVENT
  | DEFAULT
deriving DecidableEq

/-- The slice of the User entity read by the permission checker: its
permission list.  (The stored User also carries roles, email, secret, etc.;
the lifecycle manager only reads permissions.) -/
structure User where
  permissions : List Permission
deriving DecidableEq

/-- hasPermissions as written in src/src/lib/utils/events.ts lines 112-118:
permissions.every(p => user?.permissions?.includes(p)) ||
user?.permissions?.includes(Permission.ADMIN).  An absent user makes each
optional-chained membership test falsy, but an empty required list makes the
every-call vacuously true before the user is ever consulted. -/
def hasPermissions (user : Option User) (permissions : List Permission) : Bool :=
  (permissions.all fun p =>
    match user with
    | none => false
    | some u => decide (p ∈ u.permissions)) ||
  (match user with
   | none => false
   | some u => decide (Permission.ADMIN ∈ u.permissions))

/-- hasPermissions as written in src/unnamed/part_010 lines 4-17: identical
to hasPermissions except that a null/undefined user is rejected first
(if (!user) return false). -/
def hasPermissionsGuarded (user : Option User) (permissions : List Permission) : Bool :=
  match user with
  | none => false
  | some u =>
    (permissions.all fun p => decide (p ∈ u.permissions)) ||
    decide (Permission.ADMIN ∈ u.permissions)

/-- Default field values, config.event.default in
src/src/lib/config/event.config.ts. -/
structure EventDefaults where
  name : String
  description : String
  date : String
  location : String
  image : String
  perks : List String
  rsvps : List String
  pinned : Bool

/-- Upper bounds, config.event.max. -/
structure EventMax where
  name : Nat
  description : Nat
  location : Nat
  perks : Nat
  date : Nat
  perksInput : Nat

/-- Lower bounds, config.event.min. -/
structure EventMin where
  name : Nat
  description : Nat
  location : Nat
  perks : Nat
  date : Nat

/-- The event section of the configuration object. -/
structure EventConfig where
  default : EventDefaults
  max : EventMax
  min : EventMin

/-- The configuration object shape (only the event section is relevant). -/
structure Config where
  event : EventConfig

/-- The concrete configuration from src/src/lib/config/event.config.ts
(the url fields, irrelevant to the lifecycle manager, are omitted). -/
def config : Config :=
  { event :=
    { default :=
      { name := "Event"
        description := "Empty event description"
        date := "No date provided"
        location := "No location provided"
        image := "/images/default-event-image.png"
        perks := []
        rsvps := []
        pinned := false }
      max :=
      { name := 50, description := 100, location := 50
        perks := 5, date := 50, perksInput := 59 }
      min :=
      { name := 1, description := 1, location := 1, perks := 0, date := 1 } } }

/-- A persisted Event record (src/unnamed/part_004, the Event interface /
the Prisma Event row): every field present. -/
structure Event where
  id : String
  name : String
  description : String
  date : String
  location : String
  image : String
  perks : List String
  rsvps : List String
  pinned : Bool
deriving DecidableEq

/-- Payload shape checked by isValidEventData.  The four string fields are
plain strings (JS falsiness of an absent or empty string is modelled as the
empty string); the perks list, whose absence the function tests separately,
is an Option; the whole payload is optional since the function first tests
!event. -/
structure EventData where
  name : String
  description : String
  date : String
  location : String
  perks : Option (List String)

/-- isValidEventData from src/src/lib/utils/events.ts lines 9-108: rejects a
missing event, then name, description, date, location out of the configured
length bounds (or JS-falsy), then a missing perks list or one whose length is
out of bounds; returns true otherwise. -/
def isValidEventData (event : Option EventData) : Bool :=
  match event with
  | none => false
  | some e =>
    if e.name = "" ∨ e.name.length > config.event.max.name ∨
        e.name.length < config.event.min.name then false
    else if e.description = "" ∨ e.description.length > config.event.max.description ∨
        e.description.length < config.event.min.description then false
    else if e.date = "" ∨ e.date.length > config.event.max.date ∨
        e.date.length < config.event.min.date then false
    else if e.location = "" ∨ e.location.length > config.event.max.location ∨
        e.location.length < config.event.min.location then false
    else
      match e.perks with
      | none => false
      | some perks =>
        if perks.length > config.event.max.perks ∨
            perks.length < config.event.min.perks then false
        else true

/-- Environment of external collaborators: users resolves an access token to
a User (Prisma.getUserBySecretNoPassword); delOk url tells whether a
blob-store del(url) call succeeds (false = it throws); putResult bytes is
the URL returned by uploading the given bytes, or none if conversion or put
throws; uuid is the fresh identifier produced by uuidv4(). -/
structure Env where
  users : String → Option User
  delOk : String → Bool
  putResult : String → Option String
  uuid : String

/-- Mutable world: the entity store (id to Event) and the trace of every URL
on which the blob-store delete was invoked (successfully or not). -/
structure World where
  events : String → Option Event
  deleted : List String

/-- Results returned by the mutation handlers, by JS object shape:
ok e is success:true with the event; err is the generic
success:false, event:null object; internalError is the
message:"Internal error", user:null, success:false object returned when
uploadFile yields null. -/
inductive MutationResult where
  | ok (event : Event)
  | err
  | internalError
deriving DecidableEq

/-- The success field of a handler result. -/
def MutationResult.success : MutationResult → Bool
  | .ok _ => true
  | .err => false
  | .internalError => false

/-- uploadFile from src/src/lib/server/routers/utils/upload.ts lines 6-40:
inside one try/catch it first deletes the existing file when that is truthy
and differs from the default image, then converts the base64 payload and
puts it, returning the put result; any thrown error (including one from the
delete of the old file) is caught and null is returned.  The delete
invocation is recorded in the trace before its outcome is consulted. -/
def uploadFile (env : Env) (w : World) (existingFile : Option String) (file : String) :
    Option String × World :=
  match existingFile with
  | some url =>
    if url ≠ "" ∧ url ≠ config.event.default.image then
      let w' := { w with deleted := url :: w.deleted }
      if env.delOk url then (env.putResult file, w') else (none, w')
    else (env.putResult file, w)
  | none => (env.putResult file, w)

/-- Input object of the createEvent mutation (the zod schema in
src/src/lib/server/routers/events.ts lines 20-47): id, image, perks, rsvps,
pinned optional; name, description, date, location required strings. -/
structure CreateEventInput where
  id : Option String
  name : String
  description : String
  date : String
  location : String
  image : Option String
  perks : Option (List String)
  rsvps : Option (List String)
  pinned : Option Bool

/-- Input object of the updateEvent mutation (lines 154-181): like
CreateEventInput but with a required id. -/
structure UpdateEventInput where
  id : String
  name : String
  description : String
  date : String
  location : String
  image : Option String
  perks : Option (List String)
  rsvps : Option (List String)
  pinned : Option Bool

/-- createEvent handler, src/src/lib/server/routers/events.ts lines 48-95:
resolve the user from the access token, check CREATE_EVENT, upload the inline
image when truthy (aborting with the internal-error object when uploadFile
returns null), then persist the record with id event.id || uuidv4() and each
optional field defaulted through the nullish-coalescing operator.  The
Prisma create itself is modelled as a total insert (the handler has no catch
around it and only guards a null return). -/
def createEvent (env : Env) (w : World) (accessToken : String)
    (input : CreateEventInput) : MutationResult × World :=
  match env.users accessToken with
  | none => (.err, w)
  | some user =>
    if hasPermissions (some user) [Permission.CREATE_EVENT] then
      let persist : World → Option String → MutationResult × World :=
        fun w eventImage =>
          let generatedId :=
            match input.id with
            | some i => if i ≠ "" then i else env.uuid
            | none => env.uuid
          let newEvent : Event :=
            { id := generatedId
              name := input.name
              description := input.description
              date := input.date
              location := input.location
              image := eventImage.getD config.event.default.image
              perks := input.perks.getD config.event.default.perks
              rsvps := input.rsvps.getD config.event.default.rsvps
              pinned := input.pinned.getD config.event.default.pinned }
          (.ok newEvent,
           { w with events := fun s => if s = generatedId then some newEvent else w.events s })
      match input.image with
      | some img =>
        if img ≠ "" then
          match uploadFile env w none img with
          | (none, w') => (.internalError, w')
          | (some url, w') => persist w' (some url)
        else persist w (some img)
      | none => persist w none
    else (.err, w)

/-- deleteEvent handler, src/src/lib/server/routers/events.ts lines 111-144:
resolve the user, check DELETE_EVENT, load the event (failing when absent),
delete its image blob when that is truthy and differs from the default image
(returning the generic failure if del throws), then remove the record. -/
def deleteEvent (env : Env) (w : World) (accessToken : String) (id : String) :
    MutationResult × World :=
  match env.users accessToken with
  | none => (.err, w)
  | some user =>
    if hasPermissions (some user) [Permission.DELETE_EVENT] then
      match w.events id with
      | none => (.err, w)
      | some event =>
        if event.image ≠ "" ∧ event.image ≠ config.event.default.image then
          let w' := { w with deleted := event.image :: w.deleted }
          if env.delOk event.image then
            (.ok event,
             { w' with events := fun s => if s = id then none else w'.events s })
          else (.err, w')
        else
          (.ok event,
           { w with events := fun s => if s = id then none else w.events s })
    else (.err, w)

/-- updateEvent handler, src/src/lib/server/routers/events.ts lines 182-230:
resolve the user, check EDIT_EVENT, load the previous event (failing when
absent), run uploadFile(prevEvent.image, image) when the payload's image is
truthy (aborting with the internal-error object when it returns null), then
overwrite the record: each field comes from the payload, with image, perks,
rsvps, pinned defaulted through the nullish-coalescing operator — never from
the previous record. -/
def updateEvent (env : Env) (w : World) (accessToken : String)
    (input : UpdateEventInput) : MutationResult × World :=
  match env.users accessToken with
  | none => (.err, w)
  | some user =>
    if hasPermissions (some user) [Permission.EDIT_EVENT] then
      match w.events input.id with
      | none => (.err, w)
      | some prevEvent =>
        let persist : World → Option String → MutationResult × World :=
          fun w eventImage =>
            let updatedEvent : Event :=
              { id := input.id
                name := input.name
                description := input.description
                date := input.date
                location := input.location
                image := eventImage.getD config.event.default.image
                perks := input.perks.getD config.event.default.perks
                rsvps := input.rsvps.getD config.event.default.rsvps
                pinned := input.pinned.getD config.event.default.pinned }
            (.ok updatedEvent,
             { w with events := fun s => if s = input.id then some updatedEvent else w.events s })
        match input.image with
        | some img =>
          if img ≠ "" then
            match uploadFile env w (some prevEvent.image) img with
            | (none, w') => (.internalError, w')
            | (some url, w') => persist w' (some url)
          else persist w (some img)
        | none => persist w none
    else (.err, w)

/-- getEvent handler, src/src/lib/server/routers/events.ts lines 250-263:
look the event up by id, returning the generic failure when absent. -/
def getEvent (w : World) (id : String) : MutationResult :=
  match w.events id with
  | none => .err
  | some event => .ok event

/-- The two auth gates at the head of every mutation handler, as one
boolean: the token resolves to a user and that user passes hasPermissions
for the required permissions. -/
def authorized (env : Env) (accessToken : String) (ps : List Permission) : Bool :=
  match env.users accessToken with
  | none => false
  | some user => hasPermissions (some user) ps

/-! Concrete fixtures used by counterexamples and witnesses. -/

/-- A user holding every event permission. -/
def fullUser : User :=
  { permissions := [Permission.CREATE_EVENT, Permission.EDIT_EVENT, Permission.DELETE_EVENT] }

/-- A stored event whose image is a genuine blob URL (not the sentinel). -/
def ev1 : Event :=
  { id := "e1", name := "Bake Sale", description := "Fundraiser"
    date := "2025-05-01", location := "Main Hall"
    image := "https://blob.example/old.png"
    perks := ["cookies"], rsvps := ["u1", "u2"], pinned := true }

/-- A stored event whose image is the empty string (reachable: createEvent
with image set to the empty string skips the upload because the empty string
is JS-falsy, yet stores it because the empty string is not nullish). -/
def ev2 : Event := { ev1 with id := "e2", image := "" }

/-- Environment where the token "tok" resolves to fullUser, every blob
delete succeeds and every upload yields a fresh URL. -/
def env1 : Env :=
  { users := fun s => if s = "tok" then some fullUser else none
    delOk := fun _ => true
    putResult := fun _ => some "https://blob.example/new.png"
    uuid := "uuid-1" }

/-- Like env1 but every blob delete throws. -/
def env2 : Env := { env1 with delOk := fun _ => false }

/-- Like env1 but every blob upload fails. -/
def env3 : Env := { env1 with putResult := fun _ => none }

/-- World holding exactly ev1. -/
def w1 : World := { events := fun s => if s = "e1" then some ev1 else none, deleted := [] }

/-- World holding ev1 and ev2. -/
def w2 : World :=
  { events := fun s => if s = "e1" then some ev1 else if s = "e2" then some ev2 else none
    deleted := [] }

/-- Update payload for id "e1" supplying no image, perks, rsvps or pinned. -/
def updIn1 : UpdateEventInput :=
  { id := "e1", name := "Bake Sale", description := "Fundraiser"
    date := "2025-05-01", location := "Main Hall"
    image := none, perks := none, rsvps := none, pinned := none }

/-- Like updIn1 but supplying new inline image bytes. -/
def updIn2 : UpdateEventInput := { updIn1 with image := some "data:image/png;base64,AAAA" }

/-- Create payload with inline image bytes and no id. -/
def crIn1 : CreateEventInput :=
  { id := none, name := "Bake Sale", description := "Fundraiser"
    date := "2025-05-01", location := "Main Hall"
    image := some "data:image/png;base64,AAAA"
    perks := none, rsvps := none, pinned := none }

/-- C6: the permission checker and the null actor.  The variant of
hasPermissions at src/src/lib/utils/events.ts lines 112-118 returns true for
an absent actor and the empty required list (the every-call is vacuously
true before the optional chaining can make anything falsy), while the
null-guarded variant shipped in src/unnamed/part_010 returns false there,
as the claim states; on every nonempty required list both variants agree
that an absent actor yields false. -/
theorem c6_null_actor_empty_required_set :
    hasPermissions none [] = true ∧
    hasPermissionsGuarded none [] = false ∧
    (∀ p ps, hasPermissions none (p :: ps) = false) := by
  refine ⟨by decide, by decide, fun p ps => ?_⟩
  simp [hasPermissions]

/-- Length of the empty string. -/
theorem string_empty_length : ("" : String).length = 0 := rfl

/-- C7: isValidEventData is true exactly when the payload is present, its
name, description, date and location lengths all lie within the configured
min/max bounds, and its perks list is present with length within the perks
bounds.  (The function is an ordinary pure, total Lean function; with the
configured minimum of 1 for the string fields, the JS falsiness checks on
them coincide with the lower length bounds.) -/
theorem c7_validator_accepts_exactly_bounded_payloads (event : Option EventData) :
    isValidEventData event = true ↔
      ∃ e, event = some e ∧
        (config.event.min.name ≤ e.name.length ∧
          e.name.length ≤ config.event.max.name) ∧
        (config.event.min.description ≤ e.description.length ∧
          e.description.length ≤ config.event.max.description) ∧
        (config.event.min.date ≤ e.date.length ∧
          e.date.length ≤ config.event.max.date) ∧
        (config.event.min.location ≤ e.location.length ∧
          e.location.length ≤ config.event.max.location) ∧
        ∃ perks, e.perks = some perks ∧
          config.event.min.perks ≤ perks.length ∧
          perks.length ≤ config.event.max.perks := by
  constructor
  · intro h
    cases event with
    | none => exact absurd h (by simp [isValidEventData])
    | some e =>
      refine ⟨e, rfl, ?_⟩
      cases hp : e.perks with
      | none =>
        simp only [isValidEventData, hp, config] at h
        split_ifs at h
      | some perks =>
        simp only [isValidEventData, hp, config] at h
        split_ifs at h with h1 h2 h3 h4 h5
        push_neg at h1 h2 h3 h4 h5
        simp only [config]
        exact ⟨by omega, by omega, by omega, by omega, perks, rfl, by omega⟩
  · rintro ⟨e, rfl, ⟨hn1, hn2⟩, ⟨hd1, hd2⟩, ⟨ht1, ht2⟩, ⟨hl1, hl2⟩, perks, hp, hpk1, hpk2⟩
    simp only [config] at hn1 hn2 hd1 hd2 ht1 ht2 hl1 hl2 hpk1 hpk2
    simp only [isValidEventData, hp, config]
    have c1 : ¬(e.name = "" ∨ e.name.length > 50 ∨ e.name.length < 1) := by
      push_neg
      refine ⟨fun h => ?_, by omega, by omega⟩
      rw [h, string_empty_length] at hn1; omega
    have c2 : ¬(e.description = "" ∨ e.description.length > 100 ∨
        e.description.length < 1) := by
      push_neg
      refine ⟨fun h => ?_, by omega, by omega⟩
      rw [h, string_empty_length] at hd1; omega
    have c3 : ¬(e.date = "" ∨ e.date.length > 50 ∨ e.date.length < 1) := by
      push_neg
      refine ⟨fun h => ?_, by omega, by omega⟩
      rw [h, string_empty_length] at ht1; omega
    have c4 : ¬(e.location = "" ∨ e.location.length > 50 ∨ e.location.length < 1) := by
      push_neg
      refine ⟨fun h => ?_, by omega, by omega⟩
      rw [h, string_empty_length] at hl1; omega
    have c5 : ¬(perks.length > 5 ∨ perks.length < 0) := by push_neg; omega
    rw [if_neg c1, if_neg c2, if_neg c3, if_neg c4, if_neg c5]

/-- C1 counterexample: a concrete updateEvent call whose payload supplies no
image, on a stored event whose image is a (non-sentinel) blob URL, by an
authorized user.  The call succeeds, yet the persisted image afterwards is
the default sentinel, not the prior URL: the prior image is not preserved. -/
theorem c1_no_image_update_replaces_prior_image :
    updIn1.image = none ∧
    w1.events "e1" = some ev1 ∧
    ev1.image = "https://blob.example/old.png" ∧
    (updateEvent env1 w1 "tok" updIn1).1.success = true ∧
    ((updateEvent env1 w1 "tok" updIn1).2.events "e1").map Event.image =
      some "/images/default-event-image.png" ∧
    ("/images/default-event-image.png" : String) ≠ "https://blob.example/old.png" := by
  decide

/-- C1 (amended): for every updateEvent call whose payload supplies no new
image, made by an authorized user on an existing event, the update succeeds
and the persisted image afterwards is the default sentinel
config.event.default.image — the image field is defaulted like every other
omitted optional field, not preserved from the previous record. -/
theorem c1_update_without_image_stores_sentinel
    (env : Env) (w : World) (tok : String) (input : UpdateEventInput)
    (himg : input.image = none)
    (hauth : authorized env tok [Permission.EDIT_EVENT] = true)
    (prev : Event) (hprev : w.events input.id = some prev) :
    (updateEvent env w tok input).1.success = true ∧
    ((updateEvent env w tok input).2.events input.id).map Event.image =
      some config.event.default.image := by
  unfold authorized at hauth
  unfold updateEvent
  cases hu : env.users tok with
  | none => rw [hu] at hauth; cases hauth
  | some u =>
    rw [hu] at hauth
    simp only [] at hauth
    simp [hu, hauth, hprev, himg, MutationResult.success]

/-- Witness for c1_update_without_image_stores_sentinel at the concrete
fixture. -/
theorem c1_update_without_image_stores_sentinel_witness :
    updIn1.image = none ∧
    authorized env1 "tok" [Permission.EDIT_EVENT] = true ∧
    w1.events updIn1.id = some ev1 ∧
    ((updateEvent env1 w1 "tok" updIn1).1.success = true ∧
     ((updateEvent env1 w1 "tok" updIn1).2.events updIn1.id).map Event.image =
       some config.event.default.image) :=
  ⟨rfl, by decide, by decide,
   c1_update_without_image_stores_sentinel env1 w1 "tok" updIn1 rfl (by decide) ev1 (by decide)⟩

/-- C2 counterexample: a concrete updateEvent call supplying new image bytes
where deleting the old (non-sentinel) blob fails.  Even though the upload
oracle would succeed, the whole update aborts with the internal-error result
and the record keeps its old image: uploadFile deletes the old blob BEFORE
uploading, and a delete failure is surfaced, aborting the update. -/
theorem c2_old_blob_delete_failure_aborts_update :
    updIn2.image = some "data:image/png;base64,AAAA" ∧
    w1.events "e1" = some ev1 ∧
    ev1.image ≠ "" ∧
    ev1.image ≠ config.event.default.image ∧
    env2.delOk ev1.image = false ∧
    env2.putResult "data:image/png;base64,AAAA" = some "https://blob.example/new.png" ∧
    (updateEvent env2 w1 "tok" updIn2).1 = MutationResult.internalError ∧
    (updateEvent env2 w1 "tok" updIn2).1.success = false ∧
    (updateEvent env2 w1 "tok" updIn2).2.events "e1" = some ev1 ∧
    (updateEvent env2 w1 "tok" updIn2).2.deleted = [ev1.image] := by
  decide

/-- C2 (amended): for every authorized updateEvent call supplying new image
bytes on an event whose current image is neither empty nor the sentinel,
the manager first attempts to delete the previous blob (its URL enters the
delete trace unconditionally, before any upload can succeed); if that delete
fails the update aborts with the internal-error result and the entity store
is untouched; only if it succeeds (and the upload succeeds) is the new URL
committed. -/
theorem c2_update_deletes_old_blob_before_upload
    (env : Env) (w : World) (tok : String) (input : UpdateEventInput)
    (img url : String)
    (hauth : authorized env tok [Permission.EDIT_EVENT] = true)
    (prev : Event) (hprev : w.events input.id = some prev)
    (himg : input.image = some img) (hne : img ≠ "")
    (hold1 : prev.image ≠ "") (hold2 : prev.image ≠ config.event.default.image)
    (hput : env.putResult img = some url) :
    (updateEvent env w tok input).2.deleted = prev.image :: w.deleted ∧
    (env.delOk prev.image = false →
      (updateEvent env w tok input).1 = MutationResult.internalError ∧
      (updateEvent env w tok input).2.events = w.events) ∧
    (env.delOk prev.image = true →
      (updateEvent env w tok input).1.success = true ∧
      ((updateEvent env w tok input).2.events input.id).map Event.image = some url) := by
  unfold authorized at hauth
  cases hu : env.users tok with
  | none => rw [hu] at hauth; cases hauth
  | some u =>
    rw [hu] at hauth
    simp only [] at hauth
    refine ⟨?_, fun hd => ?_, fun hd => ?_⟩
    · cases hd : env.delOk prev.image <;>
        simp [updateEvent, uploadFile, hu, hauth, hprev, himg, hne, hold1, hold2, hput, hd]
    · simp [updateEvent, uploadFile, hu, hauth, hprev, himg, hne, hold1, hold2, hput, hd,
        MutationResult.success]
    · simp [updateEvent, uploadFile, hu, hauth, hprev, himg, hne, hold1, hold2, hput, hd,
        MutationResult.success]

/-- Witness for c2_update_deletes_old_blob_before_upload at the concrete
fixture with a failing blob delete. -/
theorem c2_update_deletes_old_blob_before_upload_witness :
    authorized env2 "tok" [Permission.EDIT_EVENT] = true ∧
    w1.events updIn2.id = some ev1 ∧
    updIn2.image = some "data:image/png;base64,AAAA" ∧
    env2.putResult "data:image/png;base64,AAAA" = some "https://blob.example/new.png" ∧
    env2.delOk ev1.image = false ∧
    (updateEvent env2 w1 "tok" updIn2).2.deleted = ev1.image :: w1.deleted ∧
    (updateEvent env2 w1 "tok" updIn2).1 = MutationResult.internalError :=
  ⟨by decide, by decide, rfl, by decide, by decide,
   (c2_update_deletes_old_blob_before_upload env2 w1 "tok" updIn2
      "data:image/png;base64,AAAA" "https://blob.example/new.png" (by decide) ev1
      (by decide) rfl (by decide) (by decide) (by decide) (by decide)).1,
   ((c2_update_deletes_old_blob_before_upload env2 w1 "tok" updIn2
      "data:image/png;base64,AAAA" "https://blob.example/new.png" (by decide) ev1
      (by decide) rfl (by decide) (by decide) (by decide) (by decide)).2.1 (by decide)).1⟩

/-- C3: for every createEvent call that supplies inline image bytes, if the
blob upload fails the handler returns a failure before Prisma.createEvent is
ever reached: the entity store is unchanged, and a getEvent for any id that
was absent before the call still yields the not-found failure. -/
theorem c3_create_upload_failure_persists_no_record
    (env : Env) (w : World) (tok : String) (input : CreateEventInput) (img : String)
    (himg : input.image = some img) (hne : img ≠ "")
    (hput : env.putResult img = none) :
    (createEvent env w tok input).1.success = false ∧
    (createEvent env w tok input).2.events = w.events ∧
    ∀ i, w.events i = none → getEvent (createEvent env w tok input).2 i = MutationResult.err := by
  have h : (createEvent env w tok input).1.success = false ∧
      (createEvent env w tok input).2.events = w.events := by
    unfold createEvent
    cases hu : env.users tok with
    | none => simp [MutationResult.success]
    | some u =>
      by_cases hperm : hasPermissions (some u) [Permission.CREATE_EVENT] = true
      · simp [hperm, himg, hne, uploadFile, hput, MutationResult.success]
      · simp [hperm, MutationResult.success]
  refine ⟨h.1, h.2, fun i hi => ?_⟩
  have := congrFun h.2 i
  simp [getEvent, this, hi]

/-- Witness for c3_create_upload_failure_persists_no_record at the concrete
fixture with a failing upload. -/
theorem c3_create_upload_failure_persists_no_record_witness :
    crIn1.image = some "data:image/png;base64,AAAA" ∧
    env3.putResult "data:image/png;base64,AAAA" = none ∧
    w1.events "fresh-id" = none ∧
    (createEvent env3 w1 "tok" crIn1).1.success = false ∧
    getEvent (createEvent env3 w1 "tok" crIn1).2 "fresh-id" = MutationResult.err :=
  ⟨rfl, rfl, by decide,
   (c3_create_upload_failure_persists_no_record env3 w1 "tok" crIn1
      "data:image/png;base64,AAAA" rfl (by decide) rfl).1,
   (c3_create_upload_failure_persists_no_record env3 w1 "tok" crIn1
      "data:image/png;base64,AAAA" rfl (by decide) rfl).2.2 "fresh-id" (by decide)⟩

/-- C4 counterexample: a stored event whose image is the empty string (not
the sentinel) is removed by deleteEvent without any blob delete ever being
invoked — even in an environment where deleting that blob would fail — and
the call succeeds.  The record is thus removed although blob deletion
neither succeeded nor was skipped because the image was the sentinel: the
handler's truthiness check also skips the blob delete for an empty-string
image. -/
theorem c4_empty_image_record_removed_without_blob_delete :
    w2.events "e2" = some ev2 ∧
    ev2.image ≠ config.event.default.image ∧
    env2.delOk ev2.image = false ∧
    (deleteEvent env2 w2 "tok" "e2").1.success = true ∧
    (deleteEvent env2 w2 "tok" "e2").2.events "e2" = none ∧
    (deleteEvent env2 w2 "tok" "e2").2.deleted = [] := by
  decide

/-- C4 (amended): for an authorized deleteEvent call on an existing event,
(a) if the event's image is truthy (non-empty), differs from the sentinel
and the blob delete fails, the call returns a failure and the entity store
is unchanged; (b) the record is removed exactly when the blob delete
succeeds or was skipped because the image was the sentinel or the empty
string. -/
theorem c4_delete_blob_failure_preserves_record
    (env : Env) (w : World) (tok : String) (id : String)
    (hauth : authorized env tok [Permission.DELETE_EVENT] = true)
    (ev : Event) (hev : w.events id = some ev) :
    ((ev.image ≠ "" ∧ ev.image ≠ config.event.default.image ∧
        env.delOk ev.image = false) →
      (deleteEvent env w tok id).1.success = false ∧
      (deleteEvent env w tok id).2.events = w.events) ∧
    ((deleteEvent env w tok id).2.events id = none ↔
      (ev.image = "" ∨ ev.image = config.event.default.image ∨
        env.delOk ev.image = true)) := by
  unfold authorized at hauth
  cases hu : env.users tok with
  | none => rw [hu] at hauth; cases hauth
  | some u =>
    rw [hu] at hauth
    simp only [] at hauth
    by_cases hg1 : ev.image = ""
    · constructor
      · rintro ⟨h, -, -⟩; exact absurd hg1 h
      · simp [deleteEvent, hu, hauth, hev, hg1]
    · by_cases hg2 : ev.image = config.event.default.image
      · constructor
        · rintro ⟨-, h, -⟩; exact absurd hg2 h
        · simp [deleteEvent, hu, hauth, hev, hg1, hg2]
      · cases hd : env.delOk ev.image with
        | false =>
          constructor
          · intro _
            simp [deleteEvent, hu, hauth, hev, hg1, hg2, hd, MutationResult.success]
          · simp [deleteEvent, hu, hauth, hev, hg1, hg2, hd]
        | true =>
          constructor
          · rintro ⟨-, -, h⟩; exact absurd h (by decide)
          · simp [deleteEvent, hu, hauth, hev, hg1, hg2, hd]

/-- Witness for c4_delete_blob_failure_preserves_record at the concrete
fixture with a failing blob delete on a non-sentinel image. -/
theorem c4_delete_blob_failure_preserves_record_witness :
    authorized env2 "tok" [Permission.DELETE_EVENT] = true ∧
    w1.events "e1" = some ev1 ∧
    (ev1.image ≠ "" ∧ ev1.image ≠ config.event.default.image ∧
      env2.delOk ev1.image = false) ∧
    (deleteEvent env2 w1 "tok" "e1").1.success = false ∧
    (deleteEvent env2 w1 "tok" "e1").2.events = w1.events :=
  ⟨by decide, by decide, ⟨by decide, by decide, by decide⟩,
   ((c4_delete_blob_failure_preserves_record env2 w1 "tok" "e1" (by decide) ev1
      (by decide)).1 ⟨by decide, by decide, by decide⟩).1,
   ((c4_delete_blob_failure_preserves_record env2 w1 "tok" "e1" (by decide) ev1
      (by decide)).1 ⟨by decide, by decide, by decide⟩).2⟩

/-- C5: whenever the token does not resolve to a user, or the resolved user
fails the hasPermissions check for the operation's permission, each mutation
handler returns the generic failure with the world — entity store AND blob
delete trace — completely untouched: both gates run before any store
mutation. -/
theorem c5_auth_gate_blocks_all_mutations
    (env : Env) (w : World) (tok : String)
    (cin : CreateEventInput) (uin : UpdateEventInput) (id : String) :
    (authorized env tok [Permission.CREATE_EVENT] = false →
      createEvent env w tok cin = (MutationResult.err, w)) ∧
    (authorized env tok [Permission.EDIT_EVENT] = false →
      updateEvent env w tok uin = (MutationResult.err, w)) ∧
    (authorized env tok [Permission.DELETE_EVENT] = false →
      deleteEvent env w tok id = (MutationResult.err, w)) := by
  refine ⟨fun h => ?_, fun h => ?_, fun h => ?_⟩ <;>
  · unfold authorized at h
    cases hu : env.users tok with
    | none => simp [createEvent, updateEvent, deleteEvent, hu]
    | some u =>
      rw [hu] at h
      simp only [] at h
      simp [createEvent, updateEvent, deleteEvent, hu, h]

/-- Witness for c5_auth_gate_blocks_all_mutations with a token resolving to
no user. -/
theorem c5_auth_gate_blocks_all_mutations_witness :
    authorized env1 "badtok" [Permission.CREATE_EVENT] = false ∧
    authorized env1 "badtok" [Permission.EDIT_EVENT] = false ∧
    authorized env1 "badtok" [Permission.DELETE_EVENT] = false ∧
    createEvent env1 w1 "badtok" crIn1 = (MutationResult.err, w1) ∧
    updateEvent env1 w1 "badtok" updIn1 = (MutationResult.err, w1) ∧
    deleteEvent env1 w1 "badtok" "e1" = (MutationResult.err, w1) :=
  ⟨by decide, by decide, by decide,
   (c5_auth_gate_blocks_all_mutations env1 w1 "badtok" crIn1 updIn1 "e1").1 (by decide),
   (c5_auth_gate_blocks_all_mutations env1 w1 "badtok" crIn1 updIn1 "e1").2.1 (by decide),
   (c5_auth_gate_blocks_all_mutations env1 w1 "badtok" crIn1 updIn1 "e1").2.2 (by decide)⟩

/-- Consing a URL different from the sentinel onto the delete trace does not
change how often the sentinel occurs in it. -/
theorem count_cons_ne_sentinel (url : String) (l : List String)
    (h : url ≠ config.event.default.image) :
    (url :: l).count config.event.default.image =
      l.count config.event.default.image := by
  simp [List.count_cons, h]

/-- C8: no mutation handler ever invokes the blob-store delete on the
default-image sentinel: the number of occurrences of the sentinel URL in the
delete-invocation trace is unchanged by createEvent (which never passes an
existing file to uploadFile), updateEvent (whose uploadFile call guards the
delete with a comparison against the sentinel) and deleteEvent (which guards
its del call the same way). -/
theorem c8_sentinel_never_deleted
    (env : Env) (w : World) (tok : String)
    (cin : CreateEventInput) (uin : UpdateEventInput) (id : String) :
    (createEvent env w tok cin).2.deleted.count config.event.default.image =
      w.deleted.count config.event.default.image ∧
    (updateEvent env w tok uin).2.deleted.count config.event.default.image =
      w.deleted.count config.event.default.image ∧
    (deleteEvent env w tok id).2.deleted.count config.event.default.image =
      w.deleted.count config.event.default.image := by
  refine ⟨?_, ?_, ?_⟩
  · unfold createEvent
    cases hu : env.users tok with
    | none => rfl
    | some u =>
      by_cases hperm : hasPermissions (some u) [Permission.CREATE_EVENT] = true
      · cases himg : cin.image with
        | none => simp [hperm]
        | some img =>
          by_cases hne : img = ""
          · simp [hperm, hne]
          · cases hput : env.putResult img with
            | none => simp [hperm, hne, uploadFile, hput]
            | some url => simp [hperm, hne, uploadFile, hput]
      · simp [hperm]
  · unfold updateEvent
    cases hu : env.users tok with
    | none => rfl
    | some u =>
      by_cases hperm : hasPermissions (some u) [Permission.EDIT_EVENT] = true
      · cases hprev : w.events uin.id with
        | none => simp [hperm]
        | some prev =>
          cases himg : uin.image with
          | none => simp [hperm]
          | some img =>
            by_cases hne : img = ""
            · simp [hperm, hne]
            · by_cases hold : prev.image ≠ "" ∧ prev.image ≠ config.event.default.image
              · have hc := count_cons_ne_sentinel prev.image w.deleted hold.2
                cases hd : env.delOk prev.image with
                | false => simp [hperm, hne, uploadFile, hold, hd, hc]
                | true =>
                  cases hput : env.putResult img with
                  | none => simp [hperm, hne, uploadFile, hold, hd, hput, hc]
                  | some url => simp [hperm, hne, uploadFile, hold, hd, hput, hc]
              · cases hput : env.putResult img with
                | none => simp [hperm, hne, uploadFile, hold, hput]
                | some url => simp [hperm, hne, uploadFile, hold, hput]
      · simp [hperm]
  · unfold deleteEvent
    cases hu : env.users tok with
    | none => rfl
    | some u =>
      by_cases hperm : hasPermissions (some u) [Permission.DELETE_EVENT] = true
      · cases hev : w.events id with
        | none => simp [hperm]
        | some ev =>
          by_cases hg : ev.image ≠ "" ∧ ev.image ≠ config.event.default.image
          · have hc := count_cons_ne_sentinel ev.image w.deleted hg.2
            cases hd : env.delOk ev.image with
            | false => simp [hperm, hg, hd, hc]
            | true => simp [hperm, hg, hd, hc]
          · simp [hperm, hg]
      · simp [hperm]

/-- C9 counterexample: three concrete deleteEvent calls failing for three
different reasons — an unresolvable token (Unauthorized), an unknown id
(NotFound), and a failing blob delete on a non-sentinel image
(StorageError) — all return the very same generic failure value
(success:false, event:null): the failure kinds are not distinguishable from
the returned outcome. -/
theorem c9_distinct_failure_kinds_yield_identical_results :
    env1.users "badtok" = none ∧
    env1.users "tok" ≠ none ∧
    w1.events "missing" = none ∧
    w1.events "e1" = some ev1 ∧
    env2.delOk ev1.image = false ∧
    (deleteEvent env1 w1 "badtok" "e1").1 = MutationResult.err ∧
    (deleteEvent env1 w1 "tok" "missing").1 = MutationResult.err ∧
    (deleteEvent env2 w1 "tok" "e1").1 = MutationResult.err := by
  decide

/-- C9 (amended): failing mutation calls do not identify the failure kind:
every deleteEvent failure — unauthorized, not-found or blob-delete
StorageError — is the one generic success:false/event:null value, and every
createEvent or updateEvent failure is either that same generic value or the
single internal-error value returned for an uploadFile failure; only the
latter is distinguishable from the rest. -/
theorem c9_failures_collapse_to_generic_value
    (env : Env) (w : World) (tok : String) (id : String)
    (cin : CreateEventInput) (uin : UpdateEventInput) :
    ((deleteEvent env w tok id).1.success = false →
      (deleteEvent env w tok id).1 = MutationResult.err) ∧
    ((createEvent env w tok cin).1.success = false →
      (createEvent env w tok cin).1 = MutationResult.err ∨
      (createEvent env w tok cin).1 = MutationResult.internalError) ∧
    ((updateEvent env w tok uin).1.success = false →
      (updateEvent env w tok uin).1 = MutationResult.err ∨
      (updateEvent env w tok uin).1 = MutationResult.internalError) ∧
    MutationResult.err ≠ MutationResult.internalError := by
  refine ⟨?_, ?_, ?_, by decide⟩
  · unfold deleteEvent
    cases hu : env.users tok with
    | none => intro _; rfl
    | some u =>
      by_cases hperm : hasPermissions (some u) [Permission.DELETE_EVENT] = true
      · cases hev : w.events id with
        | none => simp [hperm]
        | some ev =>
          by_cases hg : ev.image ≠ "" ∧ ev.image ≠ config.event.default.image
          · cases hd : env.delOk ev.image with
            | false => simp [hperm, hg, hd]
            | true => simp [hperm, hg, hd, MutationResult.success]
          · simp [hperm, hg, MutationResult.success]
      · simp [hperm]
  · unfold createEvent
    cases hu : env.users tok with
    | none => intro _; left; rfl
    | some u =>
      by_cases hperm : hasPermissions (some u) [Permission.CREATE_EVENT] = true
      · cases himg : cin.image with
        | none => simp [hperm, MutationResult.success]
        | some img =>
          by_cases hne : img = ""
          · simp [hperm, hne, MutationResult.success]
          · cases hput : env.putResult img with
            | none => simp [hperm, hne, uploadFile, hput]
            | some url => simp [hperm, hne, uploadFile, hput, MutationResult.success]
      · simp [hperm]
  · unfold updateEvent
    cases hu : env.users tok with
    | none => intro _; left; rfl
    | some u =>
      by_cases hperm : hasPermissions (some u) [Permission.EDIT_EVENT] = true
      · cases hprev : w.events uin.id with
        | none => simp [hperm]
        | some prev =>
          cases himg : uin.image with
          | none => simp [hperm, MutationResult.success]
          | some img =>
            by_cases hne : img = ""
            · simp [hperm, hne, MutationResult.success]
            · by_cases hold : prev.image ≠ "" ∧ prev.image ≠ config.event.default.image
              · cases hd : env.delOk prev.image with
                | false => simp [hperm, hne, uploadFile, hold, hd]
                | true =>
                  cases hput : env.putResult img with
                  | none => simp [hperm, hne, uploadFile, hold, hd, hput]
                  | some url =>
                    simp [hperm, hne, uploadFile, hold, hd, hput, MutationResult.success]
              · cases hput : env.putResult img with
                | none => simp [hperm, hne, uploadFile, hold, hput]
                | some url =>
                  simp [hperm, hne, uploadFile, hold, hput, MutationResult.success]
      · simp [hperm]

/-- Witness for c9_failures_collapse_to_generic_value at a concrete
unauthorized deleteEvent call. -/
theorem c9_failures_collapse_to_generic_value_witness :
    (deleteEvent env1 w1 "badtok" "e1").1.success = false ∧
    (deleteEvent env1 w1 "badtok" "e1").1 = MutationResult.err ∧
    MutationResult.err ≠ MutationResult.internalError :=
  ⟨by decide,
   (c9_failures_collapse_to_generic_value env1 w1 "badtok" "e1" crIn1 updIn1).1 (by decide),
   (c9_failures_collapse_to_generic_value env1 w1 "badtok" "e1" crIn1 updIn1).2.2.2⟩

/-- C10: a successful updateEvent whose payload omits perks, rsvps and
pinned persists the configured defaults ([], [], false) for these fields —
whatever the previous record held, since the persisted record is built from
the payload alone; in particular an update omitting rsvps erases all
existing RSVPs. -/
theorem c10_update_omitted_optional_fields_reset_to_defaults
    (env : Env) (w : World) (tok : String) (input : UpdateEventInput)
    (hperks : input.perks = none) (hrsvps : input.rsvps = none)
    (hpinned : input.pinned = none)
    (hsucc : (updateEvent env w tok input).1.success = true) :
    ∃ ev', (updateEvent env w tok input).2.events input.id = some ev' ∧
      ev'.perks = config.event.default.perks ∧
      ev'.rsvps = config.event.default.rsvps ∧
      ev'.pinned = config.event.default.pinned ∧
      ev'.perks = [] ∧ ev'.rsvps = [] ∧ ev'.pinned = false := by
  unfold updateEvent at hsucc ⊢
  cases hu : env.users tok with
  | none => simp [hu, MutationResult.success] at hsucc
  | some u =>
    by_cases hperm : hasPermissions (some u) [Permission.EDIT_EVENT] = true
    · cases hprev : w.events input.id with
      | none => simp [hu, hperm, hprev, MutationResult.success] at hsucc
      | some prev =>
        cases himg : input.image with
        | none => simp [hperm, hperks, hrsvps, hpinned, config]
        | some img =>
          by_cases hne : img = ""
          · simp [hperm, hne, hperks, hrsvps, hpinned, config]
          · cases hres : uploadFile env w (some prev.image) img with
            | mk blob w2 =>
              cases blob with
              | none =>
                simp [hu, hperm, hprev, himg, hne, hres, MutationResult.success] at hsucc
              | some url => simp [hperm, hne, hres, hperks, hrsvps, hpinned, config]
    · simp [hu, hperm, MutationResult.success] at hsucc

/-- Witness for c10_update_omitted_optional_fields_reset_to_defaults at the
concrete fixture whose stored event has nonempty perks and rsvps and is
pinned. -/
theorem c10_update_omitted_optional_fields_reset_to_defaults_witness :
    updIn1.perks = none ∧ updIn1.rsvps = none ∧ updIn1.pinned = none ∧
    (updateEvent env1 w1 "tok" updIn1).1.success = true ∧
    ev1.rsvps = ["u1", "u2"] ∧
    (∃ ev', (updateEvent env1 w1 "tok" updIn1).2.events updIn1.id = some ev' ∧
      ev'.perks = config.event.default.perks ∧
      ev'.rsvps = config.event.default.rsvps ∧
      ev'.pinned = config.event.default.pinned ∧
      ev'.perks = [] ∧ ev'.rsvps = [] ∧ ev'.pinned = false) :=
  ⟨rfl, rfl, rfl, by decide, by decide,
   c10_update_omitted_optional_fields_reset_to_defaults env1 w1 "tok" updIn1
     rfl rfl rfl (by decide)⟩
